import Mathlib

/-!
Verification of the hash-prefix spoofing tool (image-spoofer.py and
image-spooferv2.py): a shallow embedding of its pure logic and of its
per-worker simulated-annealing loop, with theorems settling the spec's
claims about it.

Modelling conventions:
  - The saved image bytes and their digest are abstracted by a
    deterministic function from the metadata state to a hex string
    (the image pixels never change during a run, only the EXIF
    UserComment field does, so the saved bytes are a function of that
    field alone).
  - Randomness (random.randint and random.random draws) enters as
    explicit oracle streams, one value per loop iteration.
  - Python floats are modelled as real numbers; float division by
    exactly zero raises ZeroDivisionError in Python and is modelled by
    an Option result.
-/

/-- Count of leading equal characters of two character lists: the loop
body of hash_similarity (zip the two strings, count matches from the
start, stop at the first mismatch). -/
def simAux : List Char → List Char → Nat
  | c1 :: t1, c2 :: t2 => if c1 = c2 then simAux t1 t2 + 1 else 0
  | _, _ => 0

/-- hash_similarity from both source files: the number of matching
characters from the start of current_hash and the target, comparing
characters for plain (case-sensitive) equality. -/
def hash_similarity (current_hash tgt : String) : Nat :=
  simAux current_hash.toList tgt.toList

/-- Modelled from the spec words for claim C4 only: the longest common
prefix length under case-insensitive comparison, to be compared with
the source's hash_similarity. -/
def lcpCaseInsensitive : List Char → List Char → Nat
  | c1 :: t1, c2 :: t2 =>
      if c1.toLower = c2.toLower then lcpCaseInsensitive t1 t2 + 1 else 0
  | _, _ => 0

/-- Python str.startswith: the target is a prefix of the digest. -/
def pyStartsWith (s tgt : String) : Bool :=
  tgt.toList.isPrefixOf s.toList

/-- The sixteen lowercase hex digits of the validation string in main. -/
def hexDigits : List Char := "0123456789abcdef".toList

/-- The target-prefix validation in main of both source files:
all characters of the lowercased argument lie in the hex digit string
(an all(...) generator expression, vacuously true on the empty string).
Lowercasing is per character, as str.lower acts on the ASCII hex range. -/
def prefixOk (tgt : String) : Bool :=
  (tgt.toList.map Char.toLower).all (fun c => decide (c ∈ hexDigits))

/-- acceptance_probability of image-spooferv2.py: 1.0 when the new
similarity exceeds the old, otherwise exp of the similarity difference
divided by max(temperature, 1e-10). The exponential is the real one:
this widening keeps the branch structure and the division exact but
idealizes magnitudes — IEEE math.exp underflows to exactly 0.0 for
arguments below about -745, which the real exp never does, so bounds
that hinge on the value of exp being nonzero are not in the model's
scope. -/
noncomputable def acceptance_probability
    (temperature : ℝ) (new_similarity old_similarity : Nat) : ℝ :=
  if old_similarity < new_similarity then 1
  else Real.exp (((new_similarity : ℝ) - old_similarity) / max temperature (1e-10))

open Classical in
/-- acceptance_probability of image-spoofer.py (v1): same branch on the
similarities but the division is by the temperature itself, with no
epsilon floor; Python float division by exactly zero raises
ZeroDivisionError, modelled as none. The same real-exp widening as in
acceptance_probability applies: the none/some structure and the
division are exact, the magnitude of the exponential is idealized. -/
noncomputable def acceptance_probability_v1
    (temperature : ℝ) (new_similarity old_similarity : Nat) : Option ℝ :=
  if old_similarity < new_similarity then some 1
  else if temperature = 0 then none
  else some (Real.exp (((new_similarity : ℝ) - old_similarity) / temperature))

/-- The EXIF metadata of the image, restricted to the only field the
program ever writes: the Exif IFD UserComment entry. Every other field
of the piexif dictionary is constant through a run and is absorbed into
the abstract digest function. none models an image whose EXIF has no
UserComment entry. -/
structure ExifState where
  userComment : Option String
deriving DecidableEq

/-- The setdefault step before the loop: if the UserComment entry is
absent it is set to the byte string Initial Spoof, otherwise kept. -/
def initExif (m : ExifState) : ExifState :=
  ⟨some (m.userComment.getD "Initial Spoof")⟩

/-- The comment written at one attempt: the f-string Attempt followed by
the drawn random integer. -/
def attemptComment (k : Nat) : String := "Attempt " ++ toString k

/-- One mutation: overwrite the UserComment entry of the working
metadata with the attempt comment for the drawn integer k (an in-place
dictionary write in the source). -/
def mutateExif (m : ExifState) (k : Nat) : ExifState :=
  { m with userComment := some (attemptComment k) }

/-- Per-worker loop state of simulated_annealing_attempt: the attempt
counter, the working exif_dict contents, the best_hash string, and the
success digest with its attempt count once the target was matched.

The source also keeps a best_metadata variable, but best_metadata is
exif_dict.copy(), a shallow copy: its Exif sub-dictionary is the very
object the loop keeps writing, so its contents coincide with the
working state at all times, and the final restore writes the working
state. The model therefore carries no separate best-metadata field;
the spec-level notion of best-known candidate is identified through
best_hash, which is a string updated only on acceptance. -/
structure AnnealState where
  idx : Nat
  working : ExifState
  bestHash : String
  found : Option (String × Nat)
deriving DecidableEq

/-- One iteration of the loop of simulated_annealing_attempt.

  - hashOf: the digest of the file that results from saving the image
    with the given metadata (deterministic composition of piexif.dump,
    image.save and calculate_file_hash);
  - tgt: the target prefix;
  - rints: the stream of random.randint(0, 1000) draws, one per step;
  - acceptRand: the outcome of the comparison of the random.random()
    draw with acceptance_probability at that step (the uniform draw is
    an external random input, so the Boolean outcome of the comparison
    is taken as the oracle; the temperature feeds only this comparison);
  - interf: concurrent interference on the shared output path: when
    some other worker wrote the file between this worker's save and its
    re-read, the metadata found on disk at the re-read; none when the
    worker's own write survived.

A state whose search already succeeded is left unchanged (the source
returns from the loop at that point). -/
def annealStep (hashOf : ExifState → String) (tgt : String) (rints : Nat → Nat)
    (acceptRand : Nat → Bool) (interf : Nat → Option ExifState)
    (s : AnnealState) : AnnealState :=
  if s.found.isSome then s
  else
    let proposal := mutateExif s.working (rints s.idx)
    let onDisk := (interf s.idx).getD proposal
    let digest := hashOf onDisk
    if pyStartsWith digest tgt then
      { s with idx := s.idx + 1, working := proposal, found := some (digest, s.idx + 1) }
    else
      let cs := hash_similarity digest tgt
      let bs := hash_similarity s.bestHash tgt
      if bs < cs || acceptRand s.idx then
        { idx := s.idx + 1, working := proposal, bestHash := digest, found := none }
      else
        { s with idx := s.idx + 1, working := proposal }

/-- The loop state before the first iteration: counter zero, metadata
after the setdefault step, best_hash initialised to the digest of the
original input file, no success yet. -/
def initState (origMeta : ExifState) (originalHash : String) : AnnealState :=
  { idx := 0, working := initExif origMeta, bestHash := originalHash, found := none }

/-- The loop state after n iterations. -/
def stateAt (hashOf : ExifState → String) (tgt : String) (rints : Nat → Nat)
    (acceptRand : Nat → Bool) (interf : Nat → Option ExifState)
    (origMeta : ExifState) (originalHash : String) (n : Nat) : AnnealState :=
  (annealStep hashOf tgt rints acceptRand interf)^[n] (initState origMeta originalHash)

/-- Outcome of one worker: the matching digest together with the number
of mutations performed, or exhaustion, carrying the metadata contents
the final restore writes to the output path. -/
inductive WorkerResult where
  | success (digest : String) (attempts : Nat)
  | exhausted (saved : ExifState)
deriving DecidableEq

/-- simulated_annealing_attempt: run the loop for max_attempts
iterations; return the matching digest on success (instrumented with
the attempt count at which it was found), otherwise exhaustion with
the metadata written by the final restore (see AnnealState on why that
is the working state). -/
def simulated_annealing_attempt (hashOf : ExifState → String) (tgt : String)
    (max_attempts : Nat) (rints : Nat → Nat) (acceptRand : Nat → Bool)
    (interf : Nat → Option ExifState) (origMeta : ExifState)
    (originalHash : String) : WorkerResult :=
  match (stateAt hashOf tgt rints acceptRand interf origMeta originalHash max_attempts).found with
  | some (d, k) => .success d k
  | none =>
      .exhausted (stateAt hashOf tgt rints acceptRand interf origMeta originalHash max_attempts).working

/-- The value the source function actually returns to the pool: the
digest string on success, None on exhaustion. -/
def workerReturn : WorkerResult → Option String
  | .success d _ => some d
  | .exhausted _ => none

/-- A single quote character, kept out of string literals. -/
def quoteChar : String := String.singleton (Char.ofNat 39)

/-- The ValueError message raised by modify_metadata_with_multiprocessing
when no worker succeeds: it is built from the target prefix and the
attempt count alone. -/
def coordErrMsg (tgt : String) (max_attempts : Nat) : String :=
  "Unable to achieve target hash " ++ "prefix " ++ quoteChar ++ tgt ++ quoteChar
    ++ " after " ++ toString max_attempts ++ " attempts."

/-- The result dictionary returned on success by
modify_metadata_with_multiprocessing. -/
structure SpoofResult where
  original_hash : String
  modified_hash : String
  is_modified : Bool
  output_path : String
deriving DecidableEq

/-- First non-None worker result, in arrival order (the order in which
pool.imap_unordered yields; scheduling is external, so the ordered list
of worker return values is the model's input). -/
def firstSuccess : List (Option String) → Option String
  | [] => none
  | some d :: _ => some d
  | none :: rest => firstSuccess rest

/-- modify_metadata_with_multiprocessing: scan the worker results in
arrival order; on the first digest build the result dictionary, with
is_modified comparing it to the original hash; if every worker returned
None, raise ValueError with a message naming only the prefix and the
attempt count. -/
def modify_metadata_with_multiprocessing (results : List (Option String))
    (originalHash tgt output_path : String) (max_attempts : Nat) :
    Except String SpoofResult :=
  match firstSuccess results with
  | some d =>
      .ok { original_hash := originalHash, modified_hash := d,
            is_modified := originalHash != d, output_path := output_path }
  | none => .error (coordErrMsg tgt max_attempts)

/-- Concrete digest oracle ignoring the metadata, used at concrete
inputs of several theorems. -/
def constHash (s : String) : ExifState → String := fun _ => s

/-- Concrete random-integer stream drawing the step index. -/
def idStream : Nat → Nat := fun n => n

/-- Concrete acceptance oracle that always rejects the coin. -/
def noAccept : Nat → Bool := fun _ => false

/-- Concrete interference trace with no concurrent writes. -/
def noInterf : Nat → Option ExifState := fun _ => none

/-- Concrete digest oracle that depends on the metadata found on disk:
a matching digest exactly for the comment X. -/
def markedHash : ExifState → String :=
  fun e => if e.userComment = some "X" then "ff00" else "0000"

/-! ## Helper lemmas -/

/-- startswith with the empty target accepts every digest. -/
theorem pyStartsWith_empty (s : String) : pyStartsWith s "" = true := by
  simp [pyStartsWith]

/-- The two lists agree on their first simAux characters. -/
theorem simAux_take : ∀ l1 l2 : List Char, l1.take (simAux l1 l2) = l2.take (simAux l1 l2) := by
  intro l1
  induction l1 with
  | nil => intro l2; simp [simAux]
  | cons c1 t1 ih =>
    intro l2
    cases l2 with
    | nil => simp [simAux]
    | cons c2 t2 =>
      by_cases h : c1 = c2
      · simp [simAux, h, List.take_succ_cons, ih t2]
      · simp [simAux, h]

/-- simAux never exceeds either length. -/
theorem simAux_le_min : ∀ l1 l2 : List Char, simAux l1 l2 ≤ min l1.length l2.length := by
  intro l1
  induction l1 with
  | nil => intro l2; simp [simAux]
  | cons c1 t1 ih =>
    intro l2
    cases l2 with
    | nil => simp [simAux]
    | cons c2 t2 =>
      by_cases h : c1 = c2
      · have := ih t2
        simp only [simAux, h, if_true, List.length_cons]
        omega
      · simp [simAux, h]

/-- simAux is maximal among the in-range agreement lengths. -/
theorem le_simAux_of_take_eq : ∀ (k : Nat) (l1 l2 : List Char),
    k ≤ min l1.length l2.length → l1.take k = l2.take k → k ≤ simAux l1 l2 := by
  intro k
  induction k with
  | zero => intro l1 l2 _ _; exact Nat.zero_le _
  | succ k ih =>
    intro l1 l2 hlen htake
    cases l1 with
    | nil => simp at hlen
    | cons c1 t1 =>
      cases l2 with
      | nil => simp at hlen
      | cons c2 t2 =>
        simp only [List.take_succ_cons, List.cons.injEq] at htake
        obtain ⟨rfl, htail⟩ := htake
        simp only [List.length_cons] at hlen
        have : k ≤ simAux t1 t2 := ih t1 t2 (by omega) htail
        simp only [simAux, if_true]
        omega

/-- Unfolding one iteration of the loop at the outer end. -/
theorem stateAt_succ (hashOf : ExifState → String) (tgt : String) (rints : Nat → Nat)
    (acceptRand : Nat → Bool) (interf : Nat → Option ExifState)
    (origMeta : ExifState) (originalHash : String) (n : Nat) :
    stateAt hashOf tgt rints acceptRand interf origMeta originalHash (n + 1)
      = annealStep hashOf tgt rints acceptRand interf
          (stateAt hashOf tgt rints acceptRand interf origMeta originalHash n) :=
  Function.iterate_succ_apply' _ _ _

/-- A state whose search already succeeded is a fixed point of the step. -/
theorem annealStep_fixed (hashOf : ExifState → String) (tgt : String) (rints : Nat → Nat)
    (acceptRand : Nat → Bool) (interf : Nat → Option ExifState) (s : AnnealState)
    (h : s.found.isSome = true) :
    annealStep hashOf tgt rints acceptRand interf s = s := by
  simp [annealStep, h]

/-- Whenever the loop records a success, the recorded attempt count is
at least one: the success digest is always the digest of a mutated
candidate, computed after the step's mutation. -/
theorem found_attempts_pos (hashOf : ExifState → String) (tgt : String) (rints : Nat → Nat)
    (acceptRand : Nat → Bool) (interf : Nat → Option ExifState)
    (origMeta : ExifState) (originalHash : String) :
    ∀ n d k,
      (stateAt hashOf tgt rints acceptRand interf origMeta originalHash n).found = some (d, k) →
      1 ≤ k := by
  intro n
  induction n with
  | zero => intro d k h; simp [stateAt, initState] at h
  | succ n ih =>
    intro d k h
    rw [stateAt_succ] at h
    cases hs : (stateAt hashOf tgt rints acceptRand interf origMeta originalHash n).found with
    | some p =>
      rw [annealStep_fixed _ _ _ _ _ _ (by simp [hs])] at h
      exact ih d k h
    | none =>
      unfold annealStep at h
      simp only [hs, Option.isSome_none, Bool.false_eq_true, if_false] at h
      split at h
      · simp only [AnnealState.found] at h
        simp at h
        omega
      · split at h <;> simp_all

/-- A result list of Nones scans to None. -/
theorem firstSuccess_none : ∀ results : List (Option String),
    (∀ r ∈ results, r = none) → firstSuccess results = none := by
  intro results
  induction results with
  | nil => intro _; rfl
  | cons r rest ih =>
    intro h
    have hr : r = none := h r (by simp)
    subst hr
    simp only [firstSuccess]
    exact ih (fun x hx => h x (by simp [hx]))

/-! ## Claims -/

/-- C1 counterexample: an input whose original digest already starts
with the target, run with one worker and budget 1. The original digest
is never compared to the target; the first attempt mutates, and the
search returns the mutated digest, which differs from the original, so
the coordinator reports is_modified true — against zero mutations,
changed false and final_hash equal to original_hash. -/
theorem c1_counterexample :
    pyStartsWith "9f86" "9f" = true
    ∧ simulated_annealing_attempt (constHash "9fff") "9f" 1 idStream noAccept noInterf ⟨none⟩ "9f86"
        = .success "9fff" 1
    ∧ ("9fff" : String) ≠ "9f86"
    ∧ modify_metadata_with_multiprocessing
        [workerReturn
          (simulated_annealing_attempt (constHash "9fff") "9f" 1 idStream noAccept noInterf
            ⟨none⟩ "9f86")]
        "9f86" "9f" "out" 1
      = .ok ⟨"9f86", "9fff", true, "out"⟩ :=
  ⟨by decide, by decide, by decide, by rfl⟩

/-- C1 (amended): the per-worker loop mutates and re-hashes before its
first prefix comparison and never tests the original digest, so every
success reports at least one performed mutation. -/
theorem c1_success_performs_a_mutation (hashOf : ExifState → String) (tgt : String)
    (rints : Nat → Nat) (acceptRand : Nat → Bool) (interf : Nat → Option ExifState)
    (origMeta : ExifState) (originalHash : String) (max_attempts : Nat) (d : String) (k : Nat)
    (h : simulated_annealing_attempt hashOf tgt max_attempts rints acceptRand interf
          origMeta originalHash = .success d k) :
    1 ≤ k := by
  unfold simulated_annealing_attempt at h
  split at h
  · rename_i d0 k0 heq
    cases h
    exact found_attempts_pos hashOf tgt rints acceptRand interf origMeta originalHash
      max_attempts d k heq
  · cases h

/-- C1 witness: the amended claim at the concrete counterexample input. -/
theorem c1_success_performs_a_mutation_witness :
    simulated_annealing_attempt (constHash "9fff") "9f" 1 idStream noAccept noInterf ⟨none⟩ "9f86"
      = .success "9fff" 1
    ∧ 1 ≤ 1 :=
  ⟨by decide,
   c1_success_performs_a_mutation (constHash "9fff") "9f" idStream noAccept noInterf
     ⟨none⟩ "9f86" 1 "9fff" 1 (by decide)⟩

/-- C2 counterexample: at temperature exactly zero the v1
acceptance_probability does not evaluate to the epsilon-guarded
exponential — it has no guard and its division by zero raises. -/
theorem c2_counterexample :
    acceptance_probability_v1 0 0 1
      ≠ some (Real.exp ((((0 : Nat) : ℝ) - ((1 : Nat) : ℝ)) / max 0 (1e-10))) := by
  simp [acceptance_probability_v1]

/-- C2 (amended): for new_similarity less than or equal to
old_similarity, the v2 acceptance probability is
exp((new - old) / max(temperature, 1e-10)) for every temperature, zero
included; the v1 variant has no epsilon floor: for nonzero temperature
it divides by the temperature itself, and at temperature exactly zero
its division raises instead of producing a value. -/
theorem c2_epsilon_floor_only_in_v2 (temperature : ℝ) (ns os : Nat) (h : ns ≤ os) :
    acceptance_probability temperature ns os
        = Real.exp (((ns : ℝ) - os) / max temperature (1e-10))
    ∧ (temperature ≠ 0 → acceptance_probability_v1 temperature ns os
        = some (Real.exp (((ns : ℝ) - os) / temperature)))
    ∧ acceptance_probability_v1 0 ns os = none := by
  have hno : ¬ os < ns := by omega
  refine ⟨by simp [acceptance_probability, hno], fun ht => ?_, ?_⟩
  · simp [acceptance_probability_v1, hno, ht]
  · simp [acceptance_probability_v1, hno]

/-- C2 witness: the amended claim at temperature 1 with similarities
0 and 1. -/
theorem c2_epsilon_floor_only_in_v2_witness :
    acceptance_probability 1 0 1
        = Real.exp ((((0 : Nat) : ℝ) - ((1 : Nat) : ℝ)) / max 1 (1e-10))
    ∧ ((1 : ℝ) ≠ 0 → acceptance_probability_v1 1 0 1
        = some (Real.exp ((((0 : Nat) : ℝ) - ((1 : Nat) : ℝ)) / 1)))
    ∧ acceptance_probability_v1 0 0 1 = none :=
  c2_epsilon_floor_only_in_v2 1 0 1 (by decide)

/-- C3 counterexample: two all-exhausted runs whose workers observed
different candidates and digests produce the very same failure value,
a ValueError message built from only the prefix and the attempt count:
no best-similarity candidate is carried (the worker return value on
exhaustion is None). -/
theorem c3_counterexample :
    workerReturn
        (simulated_annealing_attempt (constHash "aa00") "ff" 2 idStream noAccept noInterf
          ⟨none⟩ "0000") = none
    ∧ modify_metadata_with_multiprocessing
        [workerReturn
          (simulated_annealing_attempt (constHash "aa00") "ff" 2 idStream noAccept noInterf
            ⟨none⟩ "0000")]
        "0000" "ff" "out" 2
      = .error (coordErrMsg "ff" 2)
    ∧ modify_metadata_with_multiprocessing
        [workerReturn
          (simulated_annealing_attempt (constHash "bb11") "ff" 2 idStream noAccept noInterf
            ⟨none⟩ "1111")]
        "1111" "ff" "out" 2
      = .error (coordErrMsg "ff" 2) :=
  ⟨by decide, by rfl, by rfl⟩

/-- C3 (amended): when every worker returns None, the coordinator
raises a ValueError whose message is a function of the target prefix
and the attempt count alone; no candidate is part of the failure. -/
theorem c3_exhaustion_error_names_only_config (results : List (Option String))
    (originalHash tgt output_path : String) (max_attempts : Nat)
    (h : ∀ r ∈ results, r = none) :
    modify_metadata_with_multiprocessing results originalHash tgt output_path max_attempts
      = .error (coordErrMsg tgt max_attempts) := by
  unfold modify_metadata_with_multiprocessing
  rw [firstSuccess_none results h]

/-- C3 witness: the amended claim for two exhausted workers. -/
theorem c3_exhaustion_error_names_only_config_witness :
    modify_metadata_with_multiprocessing [none, none] "feedbeef" "ff" "out" 4
      = .error (coordErrMsg "ff" 4) :=
  c3_exhaustion_error_names_only_config [none, none] "feedbeef" "ff" "out" 4 (by decide)

/-- C4 counterexample: an uppercase target passes the CLI validation
and is handed to the search unlowered, and against it the similarity is
not the case-insensitive longest-common-prefix length: the digest
2448a6ff scores 4 against the target 2448A6, not 6. -/
theorem c4_counterexample :
    prefixOk "2448A6" = true
    ∧ hash_similarity "2448a6ff" "2448A6"
        ≠ lcpCaseInsensitive "2448a6ff".toList "2448A6".toList :=
  ⟨by decide, by decide⟩

/-- C4 (amended): the similarity score is the length of the longest
common prefix of digest and target under case-SENSITIVE character
comparison, computed from the start and stopping at the first mismatch:
the two strings agree on their first score characters, the score is at
most either length, and any in-range agreement length is at most the
score; the spec's lowercase examples hold, scoring 4 and 6. -/
theorem c4_similarity_is_case_sensitive_lcp (hs ps : String) :
    hs.toList.take (hash_similarity hs ps) = ps.toList.take (hash_similarity hs ps)
    ∧ hash_similarity hs ps ≤ min hs.toList.length ps.toList.length
    ∧ (∀ k, k ≤ min hs.toList.length ps.toList.length →
        hs.toList.take k = ps.toList.take k → k ≤ hash_similarity hs ps)
    ∧ hash_similarity "2448ff00" "2448a6" = 4
    ∧ hash_similarity "2448a6ff" "2448a6" = 6 :=
  ⟨simAux_take _ _, simAux_le_min _ _,
   fun k hk ht => le_simAux_of_take_eq k _ _ hk ht, by decide, by decide⟩

/-- C5 counterexample: the empty target passes the validation of main
(the all(...) check is vacuously true), against the claim that it is
rejected before any search starts. -/
theorem c5_counterexample : prefixOk "" = true := by decide

/-- C5 (amended): the validation accepts a target exactly when every
character of its lowercasing is a hex digit; any target containing a
non-hex character is rejected, but the empty target passes. -/
theorem c5_validation_accepts_empty_rejects_nonhex (tgt : String) :
    (prefixOk tgt = true ↔ ∀ c ∈ tgt.toList.map Char.toLower, c ∈ hexDigits)
    ∧ prefixOk "" = true := by
  constructor
  · simp [prefixOk, List.all_eq_true]
  · decide

/-- C6 counterexample: a run whose first proposal is rejected (its
similarity 0 does not beat the best similarity 2 and the acceptance
coin fails). At the top of the next iteration the working candidate is
the rejected proposal — its digest differs from best_hash — and the
next mutation is applied to that rejected proposal, not to the
best-known candidate. -/
theorem c6_counterexample :
    (stateAt (constHash "9999") "ff" idStream noAccept noInterf ⟨none⟩ "ff00" 1).found = none
    ∧ constHash "9999"
        ((stateAt (constHash "9999") "ff" idStream noAccept noInterf ⟨none⟩ "ff00" 1).working)
      ≠ (stateAt (constHash "9999") "ff" idStream noAccept noInterf ⟨none⟩ "ff00" 1).bestHash
    ∧ (stateAt (constHash "9999") "ff" idStream noAccept noInterf ⟨none⟩ "ff00" 2).working
      = mutateExif
          ((stateAt (constHash "9999") "ff" idStream noAccept noInterf ⟨none⟩ "ff00" 1).working)
          (idStream 1) :=
  ⟨by decide, by decide, by decide⟩

/-- C6 (amended): the loop never resets the working dictionary to the
best-known candidate: as long as no success is recorded, the working
candidate after an iteration is the mutation of the working candidate
before it — the previous (possibly rejected) proposal is the base of
the next mutation. In this code the mutation overwrites the one
varying field, so the drift carries no content, and best_metadata is a
shallow copy aliasing the working dictionary rather than a snapshot. -/
theorem c6_working_never_reset_to_best (hashOf : ExifState → String) (tgt : String)
    (rints : Nat → Nat) (acceptRand : Nat → Bool) (interf : Nat → Option ExifState)
    (origMeta : ExifState) (originalHash : String) (n : Nat)
    (h : (stateAt hashOf tgt rints acceptRand interf origMeta originalHash n).found = none) :
    (stateAt hashOf tgt rints acceptRand interf origMeta originalHash (n + 1)).working
      = mutateExif ((stateAt hashOf tgt rints acceptRand interf origMeta originalHash n).working)
          (rints ((stateAt hashOf tgt rints acceptRand interf origMeta originalHash n).idx)) := by
  rw [stateAt_succ]
  unfold annealStep
  simp only [h, Option.isSome_none, Bool.false_eq_true, if_false]
  split
  · rfl
  · split <;> rfl

/-- C6 witness: the amended claim at the concrete rejected-step input. -/
theorem c6_working_never_reset_to_best_witness :
    (stateAt (constHash "9999") "ff" idStream noAccept noInterf ⟨none⟩ "ff00" (0 + 1)).working
      = mutateExif
          ((stateAt (constHash "9999") "ff" idStream noAccept noInterf ⟨none⟩ "ff00" 0).working)
          (idStream ((stateAt (constHash "9999") "ff" idStream noAccept noInterf ⟨none⟩ "ff00" 0).idx)) :=
  c6_working_never_reset_to_best (constHash "9999") "ff" idStream noAccept noInterf
    ⟨none⟩ "ff00" 0 (by decide)

/-- C7 counterexample: two executions of one worker with identical
seed streams, identical initial candidate and identical configuration,
differing only in what a concurrent writer left on the shared output
path, reach different outcomes: without interference the worker
exhausts its budget; with another worker's file on disk at the re-read
its first attempt digests to a match. The digest sequence is not a
function of the worker's own seed and state alone. -/
theorem c7_counterexample :
    simulated_annealing_attempt markedHash "ff" 1 idStream noAccept noInterf ⟨none⟩ "h"
      = .exhausted ⟨some (attemptComment 0)⟩
    ∧ simulated_annealing_attempt markedHash "ff" 1 idStream noAccept
        (fun _ => some ⟨some "X"⟩) ⟨none⟩ "h"
      = .success "ff00" 1 :=
  ⟨by decide, by decide⟩

/-- C7 (amended): the sequence of per-step states (candidate, digest,
accept and reject decisions) is a function of the seed-derived
streams, the initial candidate, the configuration AND the contents
another process left on the shared output path: two runs agreeing on
all of these, the interference trace included, coincide at every
step. -/
theorem c7_determinism_given_interference (hashOf : ExifState → String) (tgt : String)
    (rints : Nat → Nat) (acceptRand : Nat → Bool)
    (interf1 interf2 : Nat → Option ExifState)
    (origMeta : ExifState) (originalHash : String) (n : Nat)
    (h : ∀ k, interf1 k = interf2 k) :
    stateAt hashOf tgt rints acceptRand interf1 origMeta originalHash n
      = stateAt hashOf tgt rints acceptRand interf2 origMeta originalHash n := by
  have heq : interf1 = interf2 := funext h
  rw [heq]

/-- C7 witness: the amended claim for the no-interference trace. -/
theorem c7_determinism_given_interference_witness :
    (∀ k, noInterf k = noInterf k)
    ∧ stateAt (constHash "9999") "ff" idStream noAccept noInterf ⟨none⟩ "h" 2
        = stateAt (constHash "9999") "ff" idStream noAccept noInterf ⟨none⟩ "h" 2 :=
  ⟨fun _ => rfl,
   c7_determinism_given_interference (constHash "9999") "ff" idStream noAccept noInterf
     noInterf ⟨none⟩ "h" 2 (fun _ => rfl)⟩

/-- C8 counterexample: with budget 0 and an original image whose EXIF
lacks a UserComment, the worker ends exhausted holding not the original
metadata but the original with an injected Initial Spoof comment, which
the final save writes out; and with its only worker exhausted the
coordinator raises the ValueError instead of producing a result with
changed false. -/
theorem c8_counterexample :
    simulated_annealing_attempt (constHash "00") "ff" 0 idStream noAccept noInterf ⟨none⟩ "feed"
      = .exhausted ⟨some "Initial Spoof"⟩
    ∧ (⟨some "Initial Spoof"⟩ : ExifState) ≠ ⟨none⟩
    ∧ modify_metadata_with_multiprocessing
        [workerReturn
          (simulated_annealing_attempt (constHash "00") "ff" 0 idStream noAccept noInterf
            ⟨none⟩ "feed")]
        "feed" "ff" "out" 0
      = .error (coordErrMsg "ff" 0) :=
  ⟨by decide, by decide, by rfl⟩

/-- C8 (amended): with attempt budget 0 a worker performs no annealing
iteration and ends exhausted, and the metadata it holds and re-saves is
the loaded metadata after the setdefault step: it equals the original
metadata exactly when the original already carried a UserComment,
otherwise it is the original with UserComment set to Initial Spoof;
the all-exhausted coordinator then raises rather than reporting
changed false. -/
theorem c8_zero_budget_saves_setdefault_metadata (hashOf : ExifState → String) (tgt : String)
    (rints : Nat → Nat) (acceptRand : Nat → Bool) (interf : Nat → Option ExifState)
    (origMeta : ExifState) (originalHash : String) :
    simulated_annealing_attempt hashOf tgt 0 rints acceptRand interf origMeta originalHash
      = .exhausted (initExif origMeta)
    ∧ (initExif origMeta = origMeta ↔ origMeta.userComment ≠ none) := by
  constructor
  · rfl
  · obtain ⟨c⟩ := origMeta
    cases c <;> simp [initExif]

/-- C9: the empty target passes the CLI validation, and a worker given
the empty target and a budget of at least 1 succeeds on its very first
attempt — startswith with an empty target accepts every digest — after
performing exactly one mutation, returning the digest of that first
mutated candidate. -/
theorem c9_empty_target_first_attempt_succeeds (hashOf : ExifState → String)
    (rints : Nat → Nat) (acceptRand : Nat → Bool) (interf : Nat → Option ExifState)
    (origMeta : ExifState) (originalHash : String) (max_attempts : Nat)
    (h : 1 ≤ max_attempts) :
    prefixOk "" = true
    ∧ simulated_annealing_attempt hashOf "" max_attempts rints acceptRand interf
        origMeta originalHash
      = .success (hashOf ((interf 0).getD (mutateExif (initExif origMeta) (rints 0)))) 1 := by
  refine ⟨by decide, ?_⟩
  obtain ⟨m, rfl⟩ : ∃ m, max_attempts = m + 1 := ⟨max_attempts - 1, by omega⟩
  have hstep : annealStep hashOf "" rints acceptRand interf (initState origMeta originalHash)
      = { idx := 1, working := mutateExif (initExif origMeta) (rints 0),
          bestHash := originalHash,
          found := some (hashOf ((interf 0).getD (mutateExif (initExif origMeta) (rints 0))), 1) } := by
    simp [annealStep, initState, pyStartsWith_empty]
  have hfix : stateAt hashOf "" rints acceptRand interf origMeta originalHash (m + 1)
      = { idx := 1, working := mutateExif (initExif origMeta) (rints 0),
          bestHash := originalHash,
          found := some (hashOf ((interf 0).getD (mutateExif (initExif origMeta) (rints 0))), 1) } := by
    unfold stateAt
    rw [Function.iterate_succ_apply, hstep]
    exact Function.iterate_fixed (by simp [annealStep]) m
  unfold simulated_annealing_attempt
  rw [hfix]

/-- C9 witness: a concrete worker with budget 3 and empty target. -/
theorem c9_empty_target_first_attempt_succeeds_witness :
    prefixOk "" = true
    ∧ simulated_annealing_attempt (constHash "abcd") "" 3 idStream noAccept noInterf ⟨none⟩ "h"
      = .success (constHash "abcd" ((noInterf 0).getD (mutateExif (initExif ⟨none⟩) (idStream 0)))) 1 :=
  c9_empty_target_first_attempt_succeeds (constHash "abcd") idStream noAccept noInterf
    ⟨none⟩ "h" 3 (by decide)
